import Mathlib

/-!
Verification of the boundary-mapping core of the repository.

The definitions below are a shallow embedding of
`src/app/device/[id]/components/BoundaryMappingModal.tsx` and of the page
handlers shown in `src/unnamed/part_001` (`handleAddPoint`,
`handleRemovePoint`, `handleRemoveLastPoint`, `handleClearPolygon`,
`calculatePolygonArea`, `handleSaveBoundary`).  JavaScript numbers are
modelled as real numbers; boolean-returning helpers whose conditions are
real-number comparisons are modelled as propositions.
-/

noncomputable section

open Real

/-- A map coordinate: `{ lat, lng }` in degrees. -/
structure Pt where
  lat : ℝ
  lng : ℝ

/-- `MIN_POINT_DISTANCE_METERS = 0.5` (BoundaryMappingModal.tsx line 75). -/
def MIN_POINT_DISTANCE_METERS : ℝ := 0.5

/-- `SNAP_TOLERANCE_METERS = 0.3` (BoundaryMappingModal.tsx line 76). -/
def SNAP_TOLERANCE_METERS : ℝ := 0.3

/-- `MIN_POINTS = 3` (BoundaryMappingModal.tsx line 81). -/
def MIN_POINTS : ℕ := 3

/-- `MAX_POINTS = 10` (BoundaryMappingModal.tsx line 82). -/
def MAX_POINTS : ℕ := 10

/-- Earth radius `R = 6371e3` used by `calculateDistance` and
`calculatePolygonArea`. -/
def EARTH_RADIUS : ℝ := 6371000

/-- JavaScript `Math.atan2 y x` (the two-argument arctangent). -/
def atan2 (y x : ℝ) : ℝ :=
  if 0 < x then arctan (y / x)
  else if x < 0 then
    (if 0 ≤ y then arctan (y / x) + π else arctan (y / x) - π)
  else
    (if 0 < y then π / 2 else if y < 0 then -(π / 2) else 0)

/-- The haversine term `a` computed inside `calculateDistance`
(BoundaryMappingModal.tsx lines 210-217):
`a = sin²(Δφ/2) + cos φ1 · cos φ2 · sin²(Δλ/2)` with all angles in radians. -/
def hav (p1 p2 : Pt) : ℝ :=
  sin ((p2.lat - p1.lat) * π / 180 / 2) * sin ((p2.lat - p1.lat) * π / 180 / 2)
    + cos (p1.lat * π / 180) * cos (p2.lat * π / 180)
      * sin ((p2.lng - p1.lng) * π / 180 / 2)
      * sin ((p2.lng - p1.lng) * π / 180 / 2)

/-- `calculateDistance` (BoundaryMappingModal.tsx lines 208-221): haversine
great-circle distance in meters, `c = 2·atan2(√a, √(1−a))`, result `R·c`. -/
def calculateDistance (p1 p2 : Pt) : ℝ :=
  let a := hav p1 p2
  let c := 2 * atan2 (Real.sqrt a) (Real.sqrt (1 - a))
  EARTH_RADIUS * c

/-- `isPointTooClose` (BoundaryMappingModal.tsx lines 224-228):
some existing vertex is closer than `MIN_POINT_DISTANCE_METERS`. -/
def isPointTooClose (c : Pt) (coords : List Pt) : Prop :=
  ∃ v ∈ coords, calculateDistance c v < MIN_POINT_DISTANCE_METERS

open Classical in
/-- `snapPoint` (BoundaryMappingModal.tsx lines 231-239): return the first
existing vertex at distance `0 < d < SNAP_TOLERANCE_METERS`, else the
candidate unchanged. -/
def snapPoint (c : Pt) : List Pt → Pt
  | [] => c
  | v :: rest =>
    if calculateDistance c v < SNAP_TOLERANCE_METERS ∧ 0 < calculateDistance c v
    then v else snapPoint c rest

/-- `doLinesIntersect` (BoundaryMappingModal.tsx lines 262-275):
determinant-based segment intersection test, true when `det ≠ 0` and both
parameters `lambda`, `gamma` lie strictly in `(0,1)`. -/
def doLinesIntersect (a1 a2 b1 b2 : Pt) : Prop :=
  let det := (a2.lng - a1.lng) * (b2.lat - b1.lat)
    - (b2.lng - b1.lng) * (a2.lat - a1.lat)
  let lam := ((b2.lat - b1.lat) * (b2.lng - a1.lng)
    + (b1.lng - b2.lng) * (b2.lat - a1.lat)) / det
  let gam := ((a1.lat - a2.lat) * (b2.lng - a1.lng)
    + (a2.lng - a1.lng) * (b2.lat - a1.lat)) / det
  det ≠ 0 ∧ ((0 < lam ∧ lam < 1) ∧ (0 < gam ∧ gam < 1))

/-- Default point used only to totalise list indexing (`getD`); every index
used below is in range, mirroring the JavaScript array accesses. -/
def originPt : Pt := ⟨0, 0⟩

/-- `wouldCreateSelfIntersection` (BoundaryMappingModal.tsx lines 242-259):
no check below 3 vertices; otherwise the candidate edge
`(lastPoint, newPoint)` is tested against the edges `(coords[i], coords[i+1])`
for `i` ranging over `0 ≤ i < length − 2`. -/
def wouldCreateSelfIntersection (c : Pt) (coords : List Pt) : Prop :=
  3 ≤ coords.length ∧
    ∃ i ∈ List.range (coords.length - 2),
      doLinesIntersect (coords.getD (coords.length - 1) originPt) c
        (coords.getD i originPt) (coords.getD (i + 1) originPt)

/-- The validation error messages set via `setValidationError`, plus the
message of `handleRemovePoint` for a non-last index. -/
inductive ValidationMsg
  | maxPointsMsg
  | tooCloseMsg
  | selfIntersectMsg
  | onlyLastPointMsg
  deriving DecidableEq

open Classical in
/-- The validation pipeline run by the map click handler
(BoundaryMappingModal.tsx lines 133-149) and by
`handleAddCoordinateFromInput` (lines 298-314), in source order:
capacity, then spacing, then self-intersection. -/
def validatePoint (c : Pt) (coords : List Pt) : Option ValidationMsg :=
  if MAX_POINTS ≤ coords.length then some .maxPointsMsg
  else if isPointTooClose c coords then some .tooCloseMsg
  else if wouldCreateSelfIntersection c coords then some .selfIntersectMsg
  else none

/-- Outcome of one add-point command: `none` when a validation rule rejected
the candidate, otherwise the new vertex list — the snapped candidate is
appended by the page's `handleAddPoint` (part_001 lines 215-219). -/
def addPointResult (c : Pt) (coords : List Pt) : Option (List Pt) :=
  match validatePoint c coords with
  | some _ => none
  | none => some (coords ++ [snapPoint c coords])

/-- `mapMode` local state: `'view' | 'edit'`. -/
inductive MapMode
  | view
  | edit
  deriving DecidableEq

/-- The observable state of the boundary-mapping screen: the modal's local
state (`isLocked`, `mapMode`, `validationError`) together with the page state
passed in as props (`polygonCoords`, `isSavingBoundary`, `hasSavedBoundary`). -/
structure ModalState where
  polygonCoords : List Pt
  isLocked : Bool
  mapMode : MapMode
  isSavingBoundary : Bool
  hasSavedBoundary : Bool
  validationError : Option ValidationMsg

open Classical in
/-- The map `click` handler (BoundaryMappingModal.tsx lines 128-155):
returns immediately when locked or not in edit mode; otherwise validates,
storing the rejection message, or appends the snapped point via
`onAddPoint`. -/
def mapClickHandler (p : Pt) (s : ModalState) : ModalState :=
  if s.isLocked ∨ s.mapMode ≠ MapMode.edit then s
  else
    match validatePoint p s.polygonCoords with
    | some msg => { s with validationError := some msg }
    | none =>
      { s with
        polygonCoords := s.polygonCoords ++ [snapPoint p s.polygonCoords],
        validationError := none }

/-- The Undo button (BoundaryMappingModal.tsx lines 581-587): disabled while
`isLocked`; otherwise `onRemoveLastPoint` drops the last vertex
(part_001 lines 225-227). -/
def removeLastPoint (s : ModalState) : ModalState :=
  if s.isLocked then s
  else { s with polygonCoords := s.polygonCoords.dropLast }

/-- The Clear All button (BoundaryMappingModal.tsx lines 588-594): disabled
while `isLocked`; otherwise `onClearPolygon` empties the vertex list
(part_001 lines 229-231). -/
def clearPolygon (s : ModalState) : ModalState :=
  if s.isLocked then s
  else { s with polygonCoords := [] }

/-- `handleRemovePoint` (BoundaryMappingModal.tsx lines 326-336): no-op while
locked; a non-last index only sets the error message; the last index is
removed via `onRemovePoint` (part_001 lines 221-223, a filter on the index). -/
def handleRemovePoint (i : ℕ) (s : ModalState) : ModalState :=
  if s.isLocked then s
  else if i ≠ s.polygonCoords.length - 1 then
    { s with validationError := some .onlyLastPointMsg }
  else
    { s with polygonCoords := s.polygonCoords.eraseIdx i,
             validationError := none }

/-- `handleUnlockBoundary` (BoundaryMappingModal.tsx lines 346-351): on a
confirmed prompt, unlock and enter edit mode; otherwise nothing happens. -/
def handleUnlockBoundary (confirmed : Bool) (s : ModalState) : ModalState :=
  if confirmed then { s with isLocked := false, mapMode := MapMode.edit }
  else s

/-- The page's `handleSaveBoundary` (part_001 lines 249-278), with the
persistence call's outcome abstracted as `ok`: early return below 3 points;
on success `setHasSavedBoundary(true)`; on failure the error is caught and
swallowed (`alert`) — in every case the function resolves and the `finally`
clears `isSavingBoundary`. -/
def handleSaveBoundaryPage (ok : Bool) (s : ModalState) : ModalState :=
  if s.polygonCoords.length < 3 then s
  else if ok then { s with hasSavedBoundary := true, isSavingBoundary := false }
  else { s with isSavingBoundary := false }

/-- The modal's `handleSaveBoundary` (BoundaryMappingModal.tsx lines 339-343):
`await onSaveBoundary(); setIsLocked(true); setMapMode('view')` — the lock and
mode switch are unconditional because the awaited promise never rejects. -/
def handleSaveBoundaryModal (ok : Bool) (s : ModalState) : ModalState :=
  let s1 := handleSaveBoundaryPage ok s
  { s1 with isLocked := true, mapMode := MapMode.view }

/-- `calculatePolygonArea` (part_001 lines 233-247): `0` below 3 vertices,
else `|Σᵢ (λ_{i+1 mod n} − λ_i)·(2 + sin φ_i + sin φ_{i+1 mod n})| · R·R/2`
with angles in radians. -/
def calculatePolygonArea (coords : List Pt) : ℝ :=
  if coords.length < 3 then 0
  else
    |(∑ i ∈ Finset.range coords.length,
        ((coords.getD ((i + 1) % coords.length) originPt).lng * π / 180
            - (coords.getD i originPt).lng * π / 180)
          * (2 + sin ((coords.getD i originPt).lat * π / 180)
            + sin ((coords.getD ((i + 1) % coords.length) originPt).lat
                * π / 180)))
      * EARTH_RADIUS * EARTH_RADIUS / 2|

/-- The self-intersection rule exactly as the specification words it
(spec §4.3 rule 3): fires only when `len ≥ 3`, testing the candidate edge
`(last_vertex, candidate)` against every edge `(polygon[i], polygon[i+1])`
for `i` in `[0, len − 2)`. -/
def specSelfIntersectionRule (c : Pt) (coords : List Pt) : Prop :=
  3 ≤ coords.length ∧
    ∃ i, i < coords.length - 2 ∧
      doLinesIntersect (coords.getD (coords.length - 1) originPt) c
        (coords.getD i originPt) (coords.getD (i + 1) originPt)

/-- Vertex sequences reachable from the empty draft by accepted add-point
commands only. -/
inductive ReachablePolygon : List Pt → Prop
  | nil : ReachablePolygon []
  | add (coords : List Pt) (c : Pt) (q : List Pt) :
      ReachablePolygon coords → addPointResult c coords = some q →
      ReachablePolygon q

/-! ## Example states and inputs -/

/-- A locked state: a boundary has been saved and the modal is in view mode. -/
def lockedStateEx : ModalState :=
  { polygonCoords := [originPt], isLocked := true, mapMode := MapMode.view,
    isSavingBoundary := false, hasSavedBoundary := true,
    validationError := none }

/-- A state captured while a save is in flight: `isSavingBoundary` is set,
the boundary is not yet locked and edit mode is still active. -/
def midSaveStateEx : ModalState :=
  { polygonCoords := [], isLocked := false, mapMode := MapMode.edit,
    isSavingBoundary := true, hasSavedBoundary := false,
    validationError := none }

/-- A ready draft (3 points) in edit mode, captured while its save call is
in flight. -/
def readyStateEx : ModalState :=
  { polygonCoords := [⟨0, 0⟩, ⟨1/1000, 0⟩, ⟨1/1000, 1/1000⟩],
    isLocked := false, mapMode := MapMode.edit, isSavingBoundary := true,
    hasSavedBoundary := false, validationError := none }

/-- Ten stacked copies of the origin: a (degenerate but type-correct) polygon
state at full capacity containing a vertex at distance `0` from the origin. -/
def tenPointsEx : List Pt := List.replicate 10 originPt

/-- A concrete triangle used to instantiate C8. -/
def triEx : List Pt := [⟨0, 0⟩, ⟨1/1000, 0⟩, ⟨1/1000, 1/1000⟩]

/-- First vertex of the zigzag example: latitude 0, longitude 0. -/
def zig0 : Pt := ⟨0, 0⟩

/-- Second vertex: latitude 0, longitude 0.006°, about 670 m east of
`zig0`. -/
def zig1 : Pt := ⟨0, 6/1000⟩

/-- Third vertex: latitude 0.006°, longitude 0.006°. -/
def zig2 : Pt := ⟨6/1000, 6/1000⟩

/-- Fourth vertex: latitude 0.006°, longitude 0.012°.  The closing edge
`zig3 → zig0` passes through the interior of the edge `zig1 → zig2`. -/
def zig3 : Pt := ⟨6/1000, 12/1000⟩

/-! ## Structural helper lemmas -/

/-- The snap tolerance is strictly below the minimum spacing. -/
lemma snap_lt_min : SNAP_TOLERANCE_METERS < MIN_POINT_DISTANCE_METERS := by
  unfold SNAP_TOLERANCE_METERS MIN_POINT_DISTANCE_METERS; norm_num

/-- A candidate that passes the spacing rule is at distance
`≥ MIN_POINT_DISTANCE_METERS` from every vertex, hence never within the
(strictly smaller) snap tolerance: `snapPoint` returns it unchanged. -/
lemma snapPoint_eq_of_not_close (c : Pt) (coords : List Pt)
    (h : ¬ isPointTooClose c coords) : snapPoint c coords = c := by
  induction coords with
  | nil => rfl
  | cons v rest ih =>
    have hv : ¬ calculateDistance c v < MIN_POINT_DISTANCE_METERS := by
      intro hlt
      exact h ⟨v, List.mem_cons_self v rest, hlt⟩
    have hrest : ¬ isPointTooClose c rest := by
      rintro ⟨w, hw, hwlt⟩
      exact h ⟨w, List.mem_cons_of_mem v hw, hwlt⟩
    have hcond : ¬ (calculateDistance c v < SNAP_TOLERANCE_METERS ∧
        0 < calculateDistance c v) := by
      rintro ⟨hsnap, -⟩
      exact hv (hsnap.trans snap_lt_min)
    rw [snapPoint, if_neg hcond]
    exact ih hrest

/-- Unfolding of `validatePoint` when all three rules pass. -/
lemma validatePoint_eq_none (c : Pt) (coords : List Pt)
    (h1 : coords.length < MAX_POINTS) (h2 : ¬ isPointTooClose c coords)
    (h3 : ¬ wouldCreateSelfIntersection c coords) :
    validatePoint c coords = none := by
  rw [validatePoint, if_neg (by omega), if_neg h2, if_neg h3]

/-- Conversely, a `none` verdict means each rule passed. -/
lemma validatePoint_none_elim (c : Pt) (coords : List Pt)
    (h : validatePoint c coords = none) :
    coords.length < MAX_POINTS ∧ ¬ isPointTooClose c coords ∧
      ¬ wouldCreateSelfIntersection c coords := by
  by_cases hcap : MAX_POINTS ≤ coords.length
  · rw [validatePoint, if_pos hcap] at h; cases h
  · by_cases hclose : isPointTooClose c coords
    · rw [validatePoint, if_neg hcap, if_pos hclose] at h; cases h
    · by_cases hint : wouldCreateSelfIntersection c coords
      · rw [validatePoint, if_neg hcap, if_neg hclose, if_pos hint] at h
        cases h
      · exact ⟨by omega, hclose, hint⟩

/-- An accepted add appends the snapped candidate, which — because the
spacing rule passed — is the candidate itself. -/
lemma addPointResult_some_elim (c : Pt) (coords q : List Pt)
    (h : addPointResult c coords = some q) :
    validatePoint c coords = none ∧ q = coords ++ [c] := by
  rw [addPointResult] at h
  cases hv : validatePoint c coords with
  | some msg => rw [hv] at h; cases h
  | none =>
    rw [hv] at h
    have hsnap := snapPoint_eq_of_not_close c coords
      (validatePoint_none_elim c coords hv).2.1
    rw [hsnap] at h
    exact ⟨rfl, (Option.some_injective _ h).symm⟩

/-- The empty draft accepts any candidate. -/
lemma validatePoint_originPt_nil : validatePoint originPt [] = none :=
  validatePoint_eq_none _ _ (by simp [MAX_POINTS])
    (by simp [isPointTooClose]) (by simp [wouldCreateSelfIntersection])

/-! ## Claims -/

/-- C1: the spec says that when the persistence call fails the boundary
remains Draft, edit mode is preserved and the error is surfaced for retry.
The code does the opposite: the page's `handleSaveBoundary` swallows the
rejection in its `catch`, so the modal's `handleSaveBoundary` resumes and
unconditionally runs `setIsLocked(true); setMapMode('view')`.  Evaluated at a
ready 3-point draft whose persistence call fails (`ok = false`): the boundary
ends up locked, in view mode, with `hasSavedBoundary` still `false` (so the
UI even shows the saved badge for an unsaved boundary). -/
theorem save_failure_still_locks :
    (handleSaveBoundaryModal false readyStateEx).isLocked = true
  ∧ (handleSaveBoundaryModal false readyStateEx).mapMode = MapMode.view
  ∧ (handleSaveBoundaryModal false readyStateEx).hasSavedBoundary = false
  ∧ (handleSaveBoundaryModal false readyStateEx).polygonCoords
      = readyStateEx.polygonCoords := by
  refine ⟨rfl, rfl, ?_, rfl⟩
  simp [handleSaveBoundaryModal, handleSaveBoundaryPage, readyStateEx]

/-- C2: while `isLocked` is set, every mutating command (map-click add, undo
last, clear, remove at an index) returns the state unchanged — in particular
the vertex sequence is bit-for-bit unchanged — and every command other than a
confirmed unlock leaves the boundary locked; the confirmed unlock
(`handleUnlockBoundary` with an accepted prompt) clears the lock, restores
edit mode and preserves the vertices. -/
theorem locked_rejects_all_mutations (s : ModalState) (p : Pt) (i : ℕ)
    (ok : Bool) (h : s.isLocked = true) :
    mapClickHandler p s = s
  ∧ removeLastPoint s = s
  ∧ clearPolygon s = s
  ∧ handleRemovePoint i s = s
  ∧ handleUnlockBoundary false s = s
  ∧ (handleSaveBoundaryModal ok s).isLocked = true
  ∧ (handleUnlockBoundary true s).isLocked = false
  ∧ (handleUnlockBoundary true s).mapMode = MapMode.edit
  ∧ (handleUnlockBoundary true s).polygonCoords = s.polygonCoords := by
  refine ⟨?_, ?_, ?_, ?_, ?_, ?_, ?_, ?_, ?_⟩
  · rw [mapClickHandler, if_pos (Or.inl (by simp [h]))]
  · rw [removeLastPoint, if_pos (by simp [h])]
  · rw [clearPolygon, if_pos (by simp [h])]
  · rw [handleRemovePoint, if_pos (by simp [h])]
  · rw [handleUnlockBoundary, if_neg (by simp)]
  · rfl
  · rfl
  · rfl
  · rfl

/-- Witness for C2 at a concrete locked state. -/
theorem locked_rejects_all_mutations_witness :
    lockedStateEx.isLocked = true
  ∧ (mapClickHandler originPt lockedStateEx = lockedStateEx
      ∧ removeLastPoint lockedStateEx = lockedStateEx
      ∧ clearPolygon lockedStateEx = lockedStateEx
      ∧ handleRemovePoint 0 lockedStateEx = lockedStateEx
      ∧ handleUnlockBoundary false lockedStateEx = lockedStateEx
      ∧ (handleSaveBoundaryModal false lockedStateEx).isLocked = true
      ∧ (handleUnlockBoundary true lockedStateEx).isLocked = false
      ∧ (handleUnlockBoundary true lockedStateEx).mapMode = MapMode.edit
      ∧ (handleUnlockBoundary true lockedStateEx).polygonCoords
          = lockedStateEx.polygonCoords) :=
  ⟨rfl, locked_rejects_all_mutations lockedStateEx originPt 0 false rfl⟩

/-- C3 counterexample: the claim says every mutating command is rejected
while `isSavingBoundary` is set.  But the click handler never consults the
flag: at a concrete mid-save state (flag set, unlocked, edit mode) a map
click appends its point. -/
theorem saving_flag_does_not_block_cex :
    midSaveStateEx.isSavingBoundary = true
  ∧ (mapClickHandler originPt midSaveStateEx).polygonCoords = [originPt] := by
  refine ⟨rfl, ?_⟩
  rw [mapClickHandler, if_neg (by simp [midSaveStateEx])]
  show (match validatePoint originPt [] with
    | some msg => { midSaveStateEx with validationError := some msg }
    | none =>
      { midSaveStateEx with
        polygonCoords := [] ++ [snapPoint originPt []],
        validationError := none }).polygonCoords = [originPt]
  rw [validatePoint_originPt_nil]
  rfl

/-- C3 amended: the saving flag does not gate the polygon-mutating commands.
Even in a state with `isSavingBoundary = true`, whenever the boundary is
unlocked and edit mode is active a validated map click appends its point, and
undo / clear / remove-last all mutate the vertex sequence exactly as when no
save is in flight; the flag only disables the Save and Close buttons. -/
theorem mutations_ignore_saving_flag (s : ModalState) (p : Pt)
    (_hsave : s.isSavingBoundary = true) (hlock : s.isLocked = false)
    (hmode : s.mapMode = MapMode.edit)
    (hacc : validatePoint p s.polygonCoords = none) :
    (mapClickHandler p s).polygonCoords
        = s.polygonCoords ++ [snapPoint p s.polygonCoords]
  ∧ (removeLastPoint s).polygonCoords = s.polygonCoords.dropLast
  ∧ (clearPolygon s).polygonCoords = []
  ∧ (handleRemovePoint (s.polygonCoords.length - 1) s).polygonCoords
      = s.polygonCoords.eraseIdx (s.polygonCoords.length - 1) := by
  refine ⟨?_, ?_, ?_, ?_⟩
  · rw [mapClickHandler, if_neg (by simp [hlock, hmode]), hacc]
  · rw [removeLastPoint, if_neg (by simp [hlock])]
  · rw [clearPolygon, if_neg (by simp [hlock])]
  · rw [handleRemovePoint, if_neg (by simp [hlock]), if_neg (by simp)]

/-- Witness for the amended C3 at the concrete mid-save state. -/
theorem mutations_ignore_saving_flag_witness :
    midSaveStateEx.isSavingBoundary = true
  ∧ midSaveStateEx.isLocked = false
  ∧ midSaveStateEx.mapMode = MapMode.edit
  ∧ validatePoint originPt midSaveStateEx.polygonCoords = none
  ∧ ((mapClickHandler originPt midSaveStateEx).polygonCoords
        = midSaveStateEx.polygonCoords
          ++ [snapPoint originPt midSaveStateEx.polygonCoords]
      ∧ (removeLastPoint midSaveStateEx).polygonCoords
          = midSaveStateEx.polygonCoords.dropLast
      ∧ (clearPolygon midSaveStateEx).polygonCoords = []
      ∧ (handleRemovePoint (midSaveStateEx.polygonCoords.length - 1)
            midSaveStateEx).polygonCoords
          = midSaveStateEx.polygonCoords.eraseIdx
              (midSaveStateEx.polygonCoords.length - 1)) :=
  ⟨rfl, rfl, rfl, validatePoint_originPt_nil,
    mutations_ignore_saving_flag midSaveStateEx originPt rfl rfl rfl
      validatePoint_originPt_nil⟩

/-- C4: because the snap tolerance (0.3 m) is strictly below the minimum
spacing (0.5 m), every candidate that passes the spacing check is left
unchanged by `snapPoint` — the merge branch is unreachable for validated
points. -/
theorem snap_merge_unreachable (c : Pt) (coords : List Pt)
    (h : ¬ isPointTooClose c coords) :
    SNAP_TOLERANCE_METERS < MIN_POINT_DISTANCE_METERS
      ∧ snapPoint c coords = c :=
  ⟨snap_lt_min, snapPoint_eq_of_not_close c coords h⟩

/-- Witness for C4 at a concrete candidate over the empty polygon. -/
theorem snap_merge_unreachable_witness :
    ¬ isPointTooClose originPt []
  ∧ (SNAP_TOLERANCE_METERS < MIN_POINT_DISTANCE_METERS
      ∧ snapPoint originPt [] = originPt) :=
  ⟨by simp [isPointTooClose],
    snap_merge_unreachable originPt [] (by simp [isPointTooClose])⟩

/-- C5: the validation pipeline returns the self-intersection rejection
exactly when the capacity and spacing rules pass and the rule fires as the
spec words it — evaluated only when `len ≥ 3`, testing the candidate edge
`(last_vertex, candidate)` against each edge `(polygon[i], polygon[i+1])`
for `i` in `[0, len−2)` (every edge except the one immediately preceding
the last vertex). -/
theorem selfintersection_rule_as_specified (c : Pt) (coords : List Pt) :
    validatePoint c coords = some ValidationMsg.selfIntersectMsg ↔
      (coords.length < MAX_POINTS ∧ ¬ isPointTooClose c coords ∧
        specSelfIntersectionRule c coords) := by
  have hspec : wouldCreateSelfIntersection c coords ↔
      specSelfIntersectionRule c coords := by
    unfold wouldCreateSelfIntersection specSelfIntersectionRule
    simp [List.mem_range]
  by_cases hcap : MAX_POINTS ≤ coords.length
  · rw [validatePoint, if_pos hcap]
    constructor
    · intro h; simp at h
    · rintro ⟨hlen, -, -⟩; omega
  · by_cases hclose : isPointTooClose c coords
    · rw [validatePoint, if_neg hcap, if_pos hclose]
      constructor
      · intro h; simp at h
      · rintro ⟨-, hnc, -⟩; exact absurd hclose hnc
    · by_cases hint : wouldCreateSelfIntersection c coords
      · rw [validatePoint, if_neg hcap, if_neg hclose, if_pos hint]
        exact ⟨fun _ => ⟨by omega, hclose, hspec.mp hint⟩, fun _ => rfl⟩
      · rw [validatePoint, if_neg hcap, if_neg hclose, if_neg hint]
        constructor
        · intro h; cases h
        · rintro ⟨-, -, hrule⟩; exact absurd (hspec.mpr hrule) hint

/-! ## Distance facts -/

/-- The haversine term of a point with itself vanishes. -/
lemma hav_self (a : Pt) : hav a a = 0 := by
  simp [hav]

/-- `calculateDistance a a = 0`. -/
lemma calculateDistance_self (a : Pt) : calculateDistance a a = 0 := by
  rw [calculateDistance, hav_self]
  rw [show (1 : ℝ) - 0 = 1 by norm_num]
  rw [Real.sqrt_zero, Real.sqrt_one, atan2, if_pos (by norm_num)]
  simp

/-- Quantitative lower bound on `sin` for small positive arguments. -/
lemma sin_small_lb (x : ℝ) (h1 : (5/100000 : ℝ) ≤ x) (h2 : x ≤ 1/10000) :
    (4/100000 : ℝ) ≤ sin x := by
  have h3 := Real.sin_gt_sub_cube (lt_of_lt_of_le (by norm_num) h1)
    (le_trans h2 (by norm_num))
  have hx3 : x ^ 3 ≤ (1/10000 : ℝ) ^ 3 :=
    pow_le_pow_left₀ (by linarith) h2 3
  nlinarith

/-- `arctan` at `10⁻⁷` is at least `4·10⁻⁸`. -/
lemma arctan_lb : (1/25000000 : ℝ) ≤ arctan (1/10000000) := by
  have hpi : (3:ℝ) < π := Real.pi_gt_three
  have heps_lt : (1/25000000 : ℝ) < π / 2 := by linarith
  have hcos : (1/2 : ℝ) ≤ cos (1/25000000 : ℝ) := by
    have h := Real.one_sub_sq_div_two_le_cos (x := (1/25000000 : ℝ))
    nlinarith
  have hsin : sin (1/25000000 : ℝ) ≤ 1/25000000 := Real.sin_le (by norm_num)
  have hsin0 : 0 ≤ sin (1/25000000 : ℝ) := by
    have := Real.sin_gt_sub_cube (x := (1/25000000 : ℝ)) (by norm_num)
      (by norm_num)
    nlinarith
  have htan : tan (1/25000000 : ℝ) ≤ 1/10000000 := by
    rw [Real.tan_eq_sin_div_cos]
    calc sin (1/25000000 : ℝ) / cos (1/25000000 : ℝ)
        ≤ (1/25000000 : ℝ) / (1/2) :=
          div_le_div₀ (by norm_num) hsin (by norm_num) hcos
      _ ≤ 1/10000000 := by norm_num
  calc (1/25000000 : ℝ) = arctan (tan (1/25000000 : ℝ)) :=
        (Real.arctan_tan (by linarith) heps_lt).symm
    _ ≤ arctan (1/10000000) := Real.arctan_strictMono.monotone htan

/-- Any pair of points whose haversine term is at least `10⁻¹⁴` is at least
`MIN_POINT_DISTANCE_METERS` apart. -/
lemma calculateDistance_ge_min (p1 p2 : Pt)
    (h : (1/100000000000000 : ℝ) ≤ hav p1 p2) :
    MIN_POINT_DISTANCE_METERS ≤ calculateDistance p1 p2 := by
  have ha0 : (0:ℝ) ≤ hav p1 p2 := le_trans (by norm_num) h
  have hy : (1/10000000 : ℝ) ≤ Real.sqrt (hav p1 p2) := by
    have hsq : ((1:ℝ)/10000000) ^ 2 = 1/100000000000000 := by norm_num
    exact (Real.le_sqrt (by norm_num) ha0).mpr (hsq ▸ h)
  show MIN_POINT_DISTANCE_METERS ≤ EARTH_RADIUS
    * (2 * atan2 (Real.sqrt (hav p1 p2)) (Real.sqrt (1 - hav p1 p2)))
  have hpi : (3:ℝ) < π := Real.pi_gt_three
  by_cases hA : (1:ℝ) ≤ hav p1 p2
  · have hx0 : Real.sqrt (1 - hav p1 p2) = 0 :=
      Real.sqrt_eq_zero'.mpr (by linarith)
    have hy0 : 0 < Real.sqrt (hav p1 p2) := Real.sqrt_pos.mpr (by linarith)
    rw [hx0, atan2, if_neg (lt_irrefl 0), if_neg (lt_irrefl 0), if_pos hy0]
    simp only [MIN_POINT_DISTANCE_METERS, EARTH_RADIUS]
    nlinarith
  · push_neg at hA
    have hx0 : 0 < Real.sqrt (1 - hav p1 p2) :=
      Real.sqrt_pos.mpr (by linarith)
    have hx1 : Real.sqrt (1 - hav p1 p2) ≤ 1 := by
      calc Real.sqrt (1 - hav p1 p2) ≤ Real.sqrt 1 :=
            Real.sqrt_le_sqrt (by linarith)
        _ = 1 := Real.sqrt_one
    rw [atan2, if_pos hx0]
    have hdiv : (1/10000000 : ℝ)
        ≤ Real.sqrt (hav p1 p2) / Real.sqrt (1 - hav p1 p2) := by
      calc (1/10000000 : ℝ) ≤ Real.sqrt (hav p1 p2) := hy
        _ = Real.sqrt (hav p1 p2) / 1 := (div_one _).symm
        _ ≤ Real.sqrt (hav p1 p2) / Real.sqrt (1 - hav p1 p2) :=
            div_le_div_of_nonneg_left (Real.sqrt_nonneg _) hx0 hx1
    have harc : (1/25000000 : ℝ)
        ≤ arctan (Real.sqrt (hav p1 p2) / Real.sqrt (1 - hav p1 p2)) :=
      le_trans arctan_lb (Real.arctan_strictMono.monotone hdiv)
    simp only [MIN_POINT_DISTANCE_METERS, EARTH_RADIUS]
    nlinarith

/-- C6 counterexample: the claim promises the spacing rejection for every
polygon state, but the capacity rule runs first.  At a 10-point state with a
candidate at distance `0 < 0.5 m` from an existing vertex, `addPoint` returns
the capacity rejection, not the spacing one. -/
theorem spacing_rejection_not_universal_cex :
    isPointTooClose originPt tenPointsEx
  ∧ validatePoint originPt tenPointsEx = some ValidationMsg.maxPointsMsg
  ∧ validatePoint originPt tenPointsEx ≠ some ValidationMsg.tooCloseMsg := by
  have hmem : originPt ∈ tenPointsEx := by
    simp [tenPointsEx]
  have hval : validatePoint originPt tenPointsEx
      = some ValidationMsg.maxPointsMsg := by
    rw [validatePoint, if_pos (by simp [tenPointsEx, MAX_POINTS])]
  refine ⟨⟨originPt, hmem, ?_⟩, hval, ?_⟩
  · rw [calculateDistance_self]
    norm_num [MIN_POINT_DISTANCE_METERS]
  · rw [hval]
    intro h
    simp at h

/-- C6 amended: for every candidate within `MIN_POINT_DISTANCE_METERS` of
some existing vertex, and every polygon state *below capacity*, validation
returns the spacing rejection (at capacity the capacity rejection fires
first), and a map click with such a candidate leaves the vertex sequence
unchanged. -/
theorem spacing_rejected_below_capacity (c : Pt) (coords : List Pt)
    (s : ModalState) (h1 : coords.length < MAX_POINTS)
    (h2 : isPointTooClose c coords) (h3 : s.polygonCoords = coords) :
    validatePoint c coords = some ValidationMsg.tooCloseMsg
  ∧ (mapClickHandler c s).polygonCoords = coords := by
  have hval : validatePoint c coords = some ValidationMsg.tooCloseMsg := by
    rw [validatePoint, if_neg (by omega), if_pos h2]
  refine ⟨hval, ?_⟩
  by_cases hg : (s.isLocked : Prop) ∨ s.mapMode ≠ MapMode.edit
  · rw [mapClickHandler, if_pos hg, h3]
  · rw [mapClickHandler, if_neg hg, h3, hval]

/-- Witness for the amended C6: a single-vertex polygon and a candidate at
distance `0` from that vertex. -/
theorem spacing_rejected_below_capacity_witness :
    [originPt].length < MAX_POINTS
  ∧ isPointTooClose originPt [originPt]
  ∧ lockedStateEx.polygonCoords = [originPt]
  ∧ (validatePoint originPt [originPt] = some ValidationMsg.tooCloseMsg
      ∧ (mapClickHandler originPt lockedStateEx).polygonCoords
          = [originPt]) := by
  have hclose : isPointTooClose originPt [originPt] :=
    ⟨originPt, by simp, by
      rw [calculateDistance_self]; norm_num [MIN_POINT_DISTANCE_METERS]⟩
  exact ⟨by simp [MAX_POINTS], hclose, rfl,
    spacing_rejected_below_capacity originPt [originPt] lockedStateEx
      (by simp [MAX_POINTS]) hclose rfl⟩

/-- Parameter characterisation of the determinant-based intersection test,
over plain reals: writing segment 1 as `(a,b)-(c,d)` and segment 2 as
`(p,q)-(r,s)` (x first), the code's `lambda`/`gamma` both lie strictly in
`(0,1)` exactly when the segments meet at parameters strictly inside `(0,1)`
on both segments. -/
lemma lines_param_iff (a b c d p q r s : ℝ) :
    (((c - a) * (s - q) - (r - p) * (d - b)) ≠ 0 ∧
      ((0 < ((s - q) * (r - a) + (p - r) * (s - b))
            / ((c - a) * (s - q) - (r - p) * (d - b)) ∧
        ((s - q) * (r - a) + (p - r) * (s - b))
            / ((c - a) * (s - q) - (r - p) * (d - b)) < 1) ∧
       (0 < ((b - d) * (r - a) + (c - a) * (s - b))
            / ((c - a) * (s - q) - (r - p) * (d - b)) ∧
        ((b - d) * (r - a) + (c - a) * (s - b))
            / ((c - a) * (s - q) - (r - p) * (d - b)) < 1)))
    ↔ (((c - a) * (s - q) - (r - p) * (d - b)) ≠ 0 ∧
        ∃ t u : ℝ, 0 < t ∧ t < 1 ∧ 0 < u ∧ u < 1 ∧
          a + t * (c - a) = p + u * (r - p) ∧
          b + t * (d - b) = q + u * (s - q)) := by
  set det := (c - a) * (s - q) - (r - p) * (d - b) with hdet_def
  set Ln := (s - q) * (r - a) + (p - r) * (s - b) with hLn_def
  set Gn := (b - d) * (r - a) + (c - a) * (s - b) with hGn_def
  constructor
  · rintro ⟨hd, ⟨hl0, hl1⟩, hg0, hg1⟩
    refine ⟨hd, Ln / det, 1 - Gn / det, hl0, hl1, by linarith, by linarith,
      ?_, ?_⟩
    · rw [hdet_def, hLn_def, hGn_def] at *
      field_simp
      ring
    · rw [hdet_def, hLn_def, hGn_def] at *
      field_simp
      ring
  · rintro ⟨hd, t, u, ht0, ht1, hu0, hu1, hx, hy⟩
    have hL : Ln = t * det := by
      rw [hdet_def, hLn_def]
      linear_combination (-(s - q)) * hx + (r - p) * hy
    have hG : Gn = (1 - u) * det := by
      rw [hdet_def, hGn_def]
      linear_combination (d - b) * hx - (c - a) * hy
    have hLd : Ln / det = t := by
      rw [hL, mul_div_cancel_right₀ t hd]
    have hGd : Gn / det = 1 - u := by
      rw [hG, mul_div_cancel_right₀ (1 - u) hd]
    refine ⟨hd, ⟨?_, ?_⟩, ?_, ?_⟩
    · rw [hLd]; exact ht0
    · rw [hLd]; exact ht1
    · rw [hGd]; linarith
    · rw [hGd]; linarith

/-- C7: `doLinesIntersect` holds exactly when the determinant is non-zero
and the two segments cross at parameters strictly inside `(0,1)` on both
segments.  In particular endpoint-touching configurations (the unique
crossing parameter equal to 0 or 1 on either segment) are not reported, and
the degenerate parallel case (determinant `= 0`) is false. -/
theorem doLinesIntersect_strict_interior (a1 a2 b1 b2 : Pt) :
    doLinesIntersect a1 a2 b1 b2 ↔
      (((a2.lng - a1.lng) * (b2.lat - b1.lat)
          - (b2.lng - b1.lng) * (a2.lat - a1.lat)) ≠ 0 ∧
        ∃ t u : ℝ, 0 < t ∧ t < 1 ∧ 0 < u ∧ u < 1 ∧
          a1.lng + t * (a2.lng - a1.lng) = b1.lng + u * (b2.lng - b1.lng) ∧
          a1.lat + t * (a2.lat - a1.lat) = b1.lat + u * (b2.lat - b1.lat)) := by
  have h := lines_param_iff a1.lng a1.lat a2.lng a2.lat
    b1.lng b1.lat b2.lng b2.lat
  simpa [doLinesIntersect] using h

/-- C8: for a polygon with at least 3 vertices, `calculatePolygonArea` equals
`|Σ (λ₂−λ₁)·(2 + sin φ₁ + sin φ₂)| · R²/2` over all cyclic consecutive pairs
(angles in radians, `R = 6 371 000 m`), and is therefore non-negative. -/
theorem area_spherical_excess (coords : List Pt) (h : 3 ≤ coords.length) :
    calculatePolygonArea coords =
      |∑ i ∈ Finset.range coords.length,
        ((coords.getD ((i + 1) % coords.length) originPt).lng * π / 180
            - (coords.getD i originPt).lng * π / 180)
          * (2 + sin ((coords.getD i originPt).lat * π / 180)
            + sin ((coords.getD ((i + 1) % coords.length) originPt).lat
                * π / 180))|
        * EARTH_RADIUS ^ 2 / 2
  ∧ 0 ≤ calculatePolygonArea coords := by
  rw [calculatePolygonArea, if_neg (by omega)]
  constructor
  · rw [abs_div, abs_mul, abs_mul,
      abs_of_pos (show (0:ℝ) < EARTH_RADIUS by norm_num [EARTH_RADIUS]),
      abs_two]
    ring
  · exact abs_nonneg _

/-- Witness for C8 at a concrete triangle. -/
theorem area_spherical_excess_witness :
    3 ≤ triEx.length
  ∧ (calculatePolygonArea triEx =
      |∑ i ∈ Finset.range triEx.length,
        ((triEx.getD ((i + 1) % triEx.length) originPt).lng * π / 180
            - (triEx.getD i originPt).lng * π / 180)
          * (2 + sin ((triEx.getD i originPt).lat * π / 180)
            + sin ((triEx.getD ((i + 1) % triEx.length) originPt).lat
                * π / 180))|
        * EARTH_RADIUS ^ 2 / 2
      ∧ 0 ≤ calculatePolygonArea triEx) :=
  ⟨by simp [triEx], area_spherical_excess triEx (by simp [triEx])⟩

/-- C9: undo then re-add is a round trip.  For every vertex sequence
reachable by accepted add-point commands, written `p ++ [v]`, removing the
last vertex yields `p`, and re-adding the very same coordinates `v` is again
accepted — neither rejected nor altered by snapping — and restores the prior
sequence exactly. -/
theorem undo_then_readd (q p : List Pt) (v : Pt)
    (hq : ReachablePolygon q) (he : q = p ++ [v]) :
    q.dropLast = p ∧ addPointResult v p = some q := by
  cases hq with
  | nil => exact absurd he (by simp)
  | add coords c _q hr hadd =>
    obtain ⟨hval, hq'⟩ := addPointResult_some_elim c coords _ hadd
    have h2 : p ++ [v] = coords ++ [c] := he.symm.trans hq'
    obtain ⟨hp, hv⟩ := List.append_inj' h2 (by simp)
    have hv' : v = c := by simpa using hv
    subst hp hv'
    constructor
    · rw [he, List.dropLast_concat]
    · rw [addPointResult, hval,
        snapPoint_eq_of_not_close v p (validatePoint_none_elim v p hval).2.1,
        ← hq']

/-- Witness for C9: the singleton polygon reached by one accepted add. -/
theorem undo_then_readd_witness :
    ReachablePolygon [originPt]
  ∧ [originPt] = ([] : List Pt) ++ [originPt]
  ∧ (([originPt] : List Pt).dropLast = []
      ∧ addPointResult originPt [] = some [originPt]) := by
  have hadd : addPointResult originPt [] = some [originPt] := by
    rw [addPointResult, validatePoint_originPt_nil]
    rfl
  have hreach : ReachablePolygon [originPt] :=
    ReachablePolygon.add [] originPt [originPt] ReachablePolygon.nil hadd
  exact ⟨hreach, rfl, undo_then_readd [originPt] [] originPt hreach rfl⟩

/-! ## The zigzag example: every add accepted, yet the closed ring crosses -/

lemma zig0_lat : zig0.lat = 0 := rfl

lemma zig0_lng : zig0.lng = 0 := rfl

lemma zig1_lat : zig1.lat = 0 := rfl

lemma zig1_lng : zig1.lng = 6/1000 := rfl

lemma zig2_lat : zig2.lat = 6/1000 := rfl

lemma zig2_lng : zig2.lng = 6/1000 := rfl

lemma zig3_lat : zig3.lat = 6/1000 := rfl

lemma zig3_lng : zig3.lng = 12/1000 := rfl

/-- The latitude `0.006°` in radians lies in `(−π/2, π/2)`, so its cosine is
positive. -/
lemma cos_zig_pos : (0:ℝ) < cos (6/1000 * π / 180) := by
  refine Real.cos_pos_of_mem_Ioo (Set.mem_Ioo.mpr ⟨?_, ?_⟩)
  · nlinarith [Real.pi_gt_three]
  · nlinarith [Real.pi_gt_three]

/-- Quantitative version: that cosine is at least `1/2`. -/
lemma cos_zig_lb : (1/2 : ℝ) ≤ cos (6/1000 * π / 180) := by
  have h := Real.one_sub_sq_div_two_le_cos (x := 6/1000 * π / 180)
  nlinarith [Real.pi_le_four, Real.pi_gt_three]

/-- Haversine lower bound for a pair separated by `0.006°` of latitude. -/
lemma hav_lb_lat (p1 p2 : Pt)
    (cpos : 0 ≤ cos (p1.lat * π / 180) * cos (p2.lat * π / 180))
    (harg : (p2.lat - p1.lat) * π / 180 / 2 = -(π / 60000)) :
    (1/100000000000000 : ℝ) ≤ hav p1 p2 := by
  have hb1 : (5/100000 : ℝ) ≤ π / 60000 := by linarith [Real.pi_gt_three]
  have hb2 : (π / 60000 : ℝ) ≤ 1/10000 := by linarith [Real.pi_le_four]
  have hs := sin_small_lb (π / 60000) hb1 hb2
  rw [hav, harg, Real.sin_neg]
  nlinarith [mul_self_nonneg (sin ((p2.lng - p1.lng) * π / 180 / 2)), cpos, hs]

/-- Haversine lower bound for a pair separated by `0.006°` of longitude, at
latitudes whose cosine product is at least `1/4`. -/
lemma hav_lb_lng (p1 p2 : Pt)
    (hc : (1/4 : ℝ) ≤ cos (p1.lat * π / 180) * cos (p2.lat * π / 180))
    (harg : (p2.lng - p1.lng) * π / 180 / 2 = -(π / 60000)) :
    (1/100000000000000 : ℝ) ≤ hav p1 p2 := by
  have hb1 : (5/100000 : ℝ) ≤ π / 60000 := by linarith [Real.pi_gt_three]
  have hb2 : (π / 60000 : ℝ) ≤ 1/10000 := by linarith [Real.pi_le_four]
  have hs := sin_small_lb (π / 60000) hb1 hb2
  have hs2 : (16/10000000000 : ℝ) ≤ sin (π / 60000) * sin (π / 60000) := by
    nlinarith
  rw [hav, harg, Real.sin_neg]
  nlinarith [mul_self_nonneg (sin ((p2.lat - p1.lat) * π / 180 / 2)), hc, hs2]

lemma hav_zig1_zig0_lb : (1/100000000000000 : ℝ) ≤ hav zig1 zig0 := by
  apply hav_lb_lng
  · rw [zig1_lat, zig0_lat, zero_mul, zero_div, Real.cos_zero, mul_one]
    norm_num
  · rw [zig0_lng, zig1_lng]; ring

lemma hav_zig2_zig0_lb : (1/100000000000000 : ℝ) ≤ hav zig2 zig0 := by
  apply hav_lb_lat
  · rw [zig2_lat, zig0_lat, zero_mul, zero_div, Real.cos_zero, mul_one]
    exact cos_zig_pos.le
  · rw [zig0_lat, zig2_lat]; ring

lemma hav_zig2_zig1_lb : (1/100000000000000 : ℝ) ≤ hav zig2 zig1 := by
  apply hav_lb_lat
  · rw [zig2_lat, zig1_lat, zero_mul, zero_div, Real.cos_zero, mul_one]
    exact cos_zig_pos.le
  · rw [zig1_lat, zig2_lat]; ring

lemma hav_zig3_zig0_lb : (1/100000000000000 : ℝ) ≤ hav zig3 zig0 := by
  apply hav_lb_lat
  · rw [zig3_lat, zig0_lat, zero_mul, zero_div, Real.cos_zero, mul_one]
    exact cos_zig_pos.le
  · rw [zig0_lat, zig3_lat]; ring

lemma hav_zig3_zig1_lb : (1/100000000000000 : ℝ) ≤ hav zig3 zig1 := by
  apply hav_lb_lat
  · rw [zig3_lat, zig1_lat, zero_mul, zero_div, Real.cos_zero, mul_one]
    exact cos_zig_pos.le
  · rw [zig1_lat, zig3_lat]; ring

lemma hav_zig3_zig2_lb : (1/100000000000000 : ℝ) ≤ hav zig3 zig2 := by
  apply hav_lb_lng
  · rw [zig3_lat, zig2_lat]
    nlinarith [cos_zig_lb, cos_zig_pos]
  · rw [zig2_lng, zig3_lng]; ring

lemma not_close_zig1 : ¬ isPointTooClose zig1 [zig0] := by
  intro h
  simp only [isPointTooClose] at h
  obtain ⟨v, hv, hlt⟩ := h
  simp only [List.mem_singleton] at hv
  subst hv
  exact absurd hlt
    (not_lt.mpr (calculateDistance_ge_min zig1 zig0 hav_zig1_zig0_lb))

lemma not_close_zig2 : ¬ isPointTooClose zig2 [zig0, zig1] := by
  intro h
  simp only [isPointTooClose] at h
  obtain ⟨v, hv, hlt⟩ := h
  simp only [List.mem_cons, List.mem_singleton, List.not_mem_nil,
    or_false] at hv
  rcases hv with hv | hv <;> subst hv
  · exact absurd hlt
      (not_lt.mpr (calculateDistance_ge_min zig2 zig0 hav_zig2_zig0_lb))
  · exact absurd hlt
      (not_lt.mpr (calculateDistance_ge_min zig2 zig1 hav_zig2_zig1_lb))

lemma not_close_zig3 : ¬ isPointTooClose zig3 [zig0, zig1, zig2] := by
  intro h
  simp only [isPointTooClose] at h
  obtain ⟨v, hv, hlt⟩ := h
  simp only [List.mem_cons, List.mem_singleton, List.not_mem_nil,
    or_false] at hv
  rcases hv with hv | hv | hv <;> subst hv
  · exact absurd hlt
      (not_lt.mpr (calculateDistance_ge_min zig3 zig0 hav_zig3_zig0_lb))
  · exact absurd hlt
      (not_lt.mpr (calculateDistance_ge_min zig3 zig1 hav_zig3_zig1_lb))
  · exact absurd hlt
      (not_lt.mpr (calculateDistance_ge_min zig3 zig2 hav_zig3_zig2_lb))

/-- The edge `zig2 → zig3` is parallel to the only non-adjacent existing
edge `zig0 → zig1` (both run due east), so the self-intersection rule passes
when `zig3` is added. -/
lemma not_intersect_zig3 :
    ¬ wouldCreateSelfIntersection zig3 [zig0, zig1, zig2] := by
  intro h
  simp only [wouldCreateSelfIntersection] at h
  obtain ⟨-, i, hi, hint⟩ := h
  have hi0 : i = 0 := by
    simp only [List.length_cons, List.length_nil, List.mem_range] at hi
    omega
  subst hi0
  simp only [List.length_cons, List.length_nil, List.getD_cons_zero,
    List.getD_cons_succ] at hint
  simp only [doLinesIntersect] at hint
  obtain ⟨hdet, -⟩ := hint
  apply hdet
  rw [zig3_lng, zig2_lng, zig1_lat, zig0_lat, zig1_lng, zig0_lng, zig3_lat,
    zig2_lat]
  norm_num

lemma add_zig0 : addPointResult zig0 [] = some [zig0] := by
  rw [addPointResult, validatePoint_eq_none zig0 [] (by simp [MAX_POINTS])
    (by simp [isPointTooClose]) (by simp [wouldCreateSelfIntersection])]
  rfl

lemma add_zig1 : addPointResult zig1 [zig0] = some [zig0, zig1] := by
  rw [addPointResult, validatePoint_eq_none zig1 [zig0]
      (by simp [MAX_POINTS]) not_close_zig1
      (by simp [wouldCreateSelfIntersection]),
    snapPoint_eq_of_not_close zig1 [zig0] not_close_zig1]
  rfl

lemma add_zig2 : addPointResult zig2 [zig0, zig1] = some [zig0, zig1, zig2] := by
  rw [addPointResult, validatePoint_eq_none zig2 [zig0, zig1]
      (by simp [MAX_POINTS]) not_close_zig2
      (by simp [wouldCreateSelfIntersection]),
    snapPoint_eq_of_not_close zig2 [zig0, zig1] not_close_zig2]
  rfl

lemma add_zig3 :
    addPointResult zig3 [zig0, zig1, zig2] = some [zig0, zig1, zig2, zig3] := by
  rw [addPointResult, validatePoint_eq_none zig3 [zig0, zig1, zig2]
      (by simp [MAX_POINTS]) not_close_zig3 not_intersect_zig3,
    snapPoint_eq_of_not_close zig3 [zig0, zig1, zig2] not_close_zig3]
  rfl

/-- C10: validation never examines the implicit closing edge.  The four
zigzag points are each individually accepted by the add-point pipeline
(`ReachablePolygon`), yet the closed ring rendered and persisted — which
appends the edge from the final vertex `zig3` back to vertex `zig0` —
contains two crossing edges: the closing edge `(zig3, zig0)` strictly
crosses the existing edge `(zig1, zig2)`.  The simple-polygon property is
therefore not guaranteed for the closed ring. -/
theorem closing_edge_unchecked_crossing :
    ReachablePolygon [zig0, zig1, zig2, zig3]
  ∧ doLinesIntersect zig3 zig0 zig1 zig2 := by
  constructor
  · exact ReachablePolygon.add _ zig3 _
      (ReachablePolygon.add _ zig2 _
        (ReachablePolygon.add _ zig1 _
          (ReachablePolygon.add _ zig0 _ ReachablePolygon.nil add_zig0)
          add_zig1)
        add_zig2)
      add_zig3
  · simp only [doLinesIntersect, zig0, zig1, zig2, zig3]
    norm_num

end
